import Mathlib

/-!
# Verification of the Wave prompt-composition pipeline

Shallow embedding of the prompt-templating, validation, and file-naming logic
of the Wave repository (`audio_prompt.py`, `image_to_text.py`, `audioldm2.py`,
`utils.py`), together with proofs of the spec's claims about it.

Conventions of the embedding:
* Python dictionaries parsed from JSON are modelled as record types whose
  fields are `Option`-valued where the source distinguishes a missing key
  (`field not in dict`, `dict.get(key)` returning `None`) from a present one.
* Python string formatting of a possibly-`None` value is modelled by `pyStr`
  (`str(None) = "None"`).
* A custom-template string (Python `str.format` with the five keyword
  substitutions) is modelled as a list of pieces, each a literal or one of the
  five placeholders.
* Machine-level concerns (unicode lowercasing beyond ASCII, float parameters)
  do not arise in the claims and are not modelled.
-/

/-! ## String-search helpers (used to state "the prompt contains ..." facts) -/

/-- Holds of `pat` and `l` iff `pat` is an initial segment of `l`. -/
def leadMatch : List Char → List Char → Bool
  | [], _ => true
  | _ :: _, [] => false
  | p :: ps, c :: cs => if p = c then leadMatch ps cs else false

/-- Holds of `l` and `pat` iff `pat` occurs contiguously somewhere in `l`. -/
def hasPat : List Char → List Char → Bool
  | [], pat => pat.isEmpty
  | c :: cs, pat => leadMatch pat (c :: cs) || hasPat cs pat

/-- Holds of `s` and `pat` iff `pat` occurs as a contiguous substring of `s`. -/
def strContains (s pat : String) : Bool := hasPat s.data pat.data

/-! ## Data model (spec §3): typed view of the scene-descriptor JSON

`Option` marks keys the source reads with `dict.get` (absent key = `none`). -/

/-- One action variant of a sound source (spec §3 `Variant`).  The upstream
`confidence` field is never read by the embedded code and is omitted. -/
structure Variant where
  play_method : Option String
  timbre : Option (List String)
  mapping_to_music_instrument : Option String
deriving Repr, DecidableEq

/-- One sound source (spec §3 `SoundSource`). -/
structure SoundSource where
  name : Option String
  material : Option String
  variants : Option (List Variant)
deriving Repr, DecidableEq

/-- A scene descriptor (spec §3 `SceneDescriptor`). -/
structure SceneData where
  scene_description : Option String
  mood_description : Option String
  sound_sources : Option (List SoundSource)
deriving Repr, DecidableEq

/-- A produced prompt record (spec §3 `PromptRecord`); `play_method` may be the
absent value `None`, stored as-is by `audio_prompt.py` line 60. -/
structure PromptRecord where
  source_name : String
  play_method : Option String
  prompt : String
deriving Repr, DecidableEq

/-- Python `str()` of an optional string: `str(None) = "None"`. -/
def pyStr : Option String → String
  | none => "None"
  | some s => s

/-- Python `str.lower()` character by character (ASCII case mapping; the only
comparison made with it in the source is against the ASCII literal `"none"`). -/
def pyLower (s : String) : String := ⟨s.data.map Char.toLower⟩

/-! ## Custom templates (`template.format(...)` in `audio_prompt.py` line 30) -/

/-- One piece of a custom template string: a literal fragment or one of the
five keyword placeholders `{name}`, `{material}`, `{play_method}`,
`{timbre_str}`, `{instrument}` passed to `str.format`. -/
inductive TemplatePiece where
  | lit (s : String)
  | name
  | material
  | play_method
  | timbre_str
  | instrument
deriving Repr, DecidableEq

/-- A custom template string, decomposed into literal and placeholder pieces. -/
abbrev Template := List TemplatePiece

/-- Python `str.format` on a custom template with the five keyword arguments of
`audio_prompt.py` lines 30-33. -/
def renderTemplate (t : Template) (name material play_method timbre_str instrument : String) :
    String :=
  t.foldl
    (fun acc p =>
      acc ++
        match p with
        | .lit s => s
        | .name => name
        | .material => material
        | .play_method => play_method
        | .timbre_str => timbre_str
        | .instrument => instrument)
    ""

/-- Python `play_method in custom_templates` followed by
`custom_templates[play_method]`: the dictionary is keyed by strings (spec §6),
so the absent value `None` never matches a key. -/
def lookupTemplate (custom_templates : List (String × Template)) :
    Option String → Option Template
  | none => none
  | some pm => custom_templates.lookup pm

/-! ## The three core-prompt templates of `generate_prompts`
(`audio_prompt.py` lines 28-50) and the context wrapper (lines 52-56). -/

/-- The fixed instrument-reference template (`audio_prompt.py` lines 35-42). -/
def instrCore (name material play_method timbre_str instrument : String) : String :=
  "Generate a high-fidelity, realistic sound effect.\n" ++
  "The sound source is '" ++ name ++ "' made of '" ++ material ++ "'.\n" ++
  "The action is a '" ++ play_method ++ "', creating a sound with a '" ++ timbre_str ++
    "' timbre.\n" ++
  "For this, use the sonic character of a '" ++ instrument ++
    "' as an inspirational reference for the sound's quality, " ++
  "especially its '" ++ timbre_str ++ "' aspects.\n" ++
  "The final audio must be a completely natural sound, not a musical note."

/-- The fixed instrument-free template (`audio_prompt.py` lines 44-50). -/
def plainCore (name material play_method timbre_str : String) : String :=
  "Generate a high-fidelity, realistic sound effect.\n" ++
  "The sound source is '" ++ name ++ "' made of '" ++ material ++ "'.\n" ++
  "The action is a '" ++ play_method ++ "', creating a sound with a '" ++ timbre_str ++
    "' timbre.\n" ++
  "The recording should be clean and detailed, sounding authentic as if captured in a " ++
    "real-world environment. " ++
  "Focus on realism, not musicality."

/-- The context wrapper applied identically to every core prompt
(`audio_prompt.py` lines 52-56). -/
def wrapPrompt (scene mood core : String) : String :=
  "Context: The scene is '" ++ scene ++ "'. The overall mood is '" ++ mood ++ "'.\n\n" ++
  core ++ "\n\n" ++
  "Crucially, the generated sound must be consistent with the '" ++ mood ++
    "' mood and not feel out of place."

/-- Model of `data.get("scene_description", "A neutral scene")` (`audio_prompt.py` line 11). -/
def sceneOf (data : SceneData) : String := data.scene_description.getD "A neutral scene"

/-- Model of `data.get("mood_description", "a neutral mood")` (`audio_prompt.py` line 12). -/
def moodOf (data : SceneData) : String := data.mood_description.getD "a neutral mood"

/-- Model of `source.get("name", "an object")` (`audio_prompt.py` line 17). -/
def sourceNameOf (source : SoundSource) : String := source.name.getD "an object"

/-- Model of `source.get("material", "unknown material")` (`audio_prompt.py` line 18). -/
def sourceMaterialOf (source : SoundSource) : String :=
  source.material.getD "unknown material"

/-- The body of the inner loop of `generate_prompts` (`audio_prompt.py`
lines 20-62): the record appended for one variant. -/
def promptRecordOf (scene mood : String) (custom_templates : List (String × Template))
    (name material : String) (variant : Variant) : PromptRecord :=
  let timbre_str := String.intercalate ", " (variant.timbre.getD [])
  let core_prompt :=
    match lookupTemplate custom_templates variant.play_method with
    | some template =>
        renderTemplate template name material (pyStr variant.play_method) timbre_str
          (pyStr variant.mapping_to_music_instrument)
    | none =>
        match variant.mapping_to_music_instrument with
        | some instr =>
            if instr ≠ "" ∧ pyLower instr ≠ "none" then
              instrCore name material (pyStr variant.play_method) timbre_str instr
            else
              plainCore name material (pyStr variant.play_method) timbre_str
        | none => plainCore name material (pyStr variant.play_method) timbre_str
  { source_name := name
    play_method := variant.play_method
    prompt := wrapPrompt scene mood core_prompt }

/-- Model of `generate_prompts` (`audio_prompt.py` lines 6-64): one record per variant,
outer loop over `sound_sources`, inner loop over each source's `variants`.
`custom_templates = None` at a call site is passed here as `[]`. -/
def generate_prompts (data : SceneData) (custom_templates : List (String × Template)) :
    List PromptRecord :=
  (data.sound_sources.getD []).flatMap fun source =>
    (source.variants.getD []).map fun variant =>
      promptRecordOf (sceneOf data) (moodOf data) custom_templates
        (sourceNameOf source) (sourceMaterialOf source) variant

/-! ## `image_to_text.py`: variant counting and structural validation -/

/-- Model of `count_total_variants` (`image_to_text.py` lines 96-103).  The
`isinstance(json_data, dict)` guard is vacuous in this typed view, where the
argument is always dictionary-shaped. -/
def count_total_variants (data : SceneData) : Nat :=
  (data.sound_sources.getD []).foldl
    (fun total source => total + (source.variants.getD []).length) 0

/-- The issues contributed by one variant (`image_to_text.py` lines 127-131). -/
def variantIssues (i j : Nat) (variant : Variant) : List String :=
  (if variant.play_method.isNone then
      ["sound_sources[" ++ toString i ++ "].variants[" ++ toString j ++
        "] missing field: play_method"]
    else []) ++
  (if variant.timbre.isNone then
      ["sound_sources[" ++ toString i ++ "].variants[" ++ toString j ++
        "] missing field: timbre"]
    else []) ++
  (if variant.mapping_to_music_instrument.isNone then
      ["sound_sources[" ++ toString i ++ "].variants[" ++ toString j ++
        "] missing field: mapping_to_music_instrument"]
    else [])

/-- The loop `for j, variant in enumerate(source['variants'])`. -/
def variantsScan (i : Nat) : Nat → List Variant → List String
  | _, [] => []
  | j, v :: rest => variantIssues i j v ++ variantsScan i (j + 1) rest

/-- The issues contributed by one source (`image_to_text.py` lines 120-131). -/
def sourceIssues (i : Nat) (source : SoundSource) : List String :=
  (if source.name.isNone then
      ["sound_sources[" ++ toString i ++ "] missing field: name"]
    else []) ++
  (if source.material.isNone then
      ["sound_sources[" ++ toString i ++ "] missing field: material"]
    else []) ++
  (if source.variants.isNone then
      ["sound_sources[" ++ toString i ++ "] missing field: variants"]
    else []) ++
  (match source.variants with
   | some vs => variantsScan i 0 vs
   | none => [])

/-- The loop `for i, source in enumerate(sources)`. -/
def sourcesScan : Nat → List SoundSource → List String
  | _, [] => []
  | i, s :: rest => sourceIssues i s ++ sourcesScan (i + 1) rest

/-- Model of `validate_json_structure` (`image_to_text.py` lines 106-133).  The
`isinstance(sources, list)` branch never fires in this typed view, where a
present `sound_sources` key always holds a list. -/
def validate_json_structure (data : SceneData) : List String :=
  (if data.scene_description.isNone then ["Missing field: scene_description"] else []) ++
  (if data.mood_description.isNone then ["Missing field: mood_description"] else []) ++
  (if data.sound_sources.isNone then ["Missing field: sound_sources"] else []) ++
  (match data.sound_sources with
   | some sources => sourcesScan 0 sources
   | none => [])

/-! ## `utils.py` / `audioldm2.py`: filename sanitization and clip naming -/

/-- The characters Python's `sanitize_filename` replaces (`utils.py` line 58). -/
def invalidFilenameChars : List Char := ['<', '>', ':', '"', '/', '\\', '|', '?', '*']

/-- One pass of `text.replace(char, "_")`. -/
def replaceCharBy (c : Char) (s : String) : String :=
  ⟨s.data.map fun x => if x = c then '_' else x⟩

/-- Python's ASCII whitespace set for `str.split()` (`' \t\n\r\x0b\x0c'`). -/
def isPySpace (c : Char) : Bool :=
  c = ' ' || c = '\t' || c = '\n' || c = '\r' || c = '\x0b' || c = '\x0c'

/-- Accumulator-based model of Python `text.split()`: split on whitespace
runs, discarding empty fragments.  `cur` holds the current fragment reversed. -/
def splitWsAux : List Char → List Char → List String
  | [], cur => if cur.isEmpty then [] else [⟨cur.reverse⟩]
  | c :: rest, cur =>
    if isPySpace c then
      if cur.isEmpty then splitWsAux rest []
      else ⟨cur.reverse⟩ :: splitWsAux rest []
    else splitWsAux rest (c :: cur)

/-- Python `text.split()` with no separator argument. -/
def pySplitWs (s : String) : List String := splitWsAux s.data []

/-- Python `text[:n]` character truncation. -/
def strTake (s : String) (n : Nat) : String := ⟨s.data.take n⟩

/-- Model of `sanitize_filename` (`utils.py` lines 56-64): replace each of the nine
invalid characters by `_`, join whitespace-split fragments with `_`, truncate
to 120 characters. -/
def sanitize_filename (text : String) : String :=
  let replaced := invalidFilenameChars.foldl (fun acc c => replaceCharBy c acc) text
  strTake (String.intercalate "_" (pySplitWs replaced)) 120

/-- Python `f"{idx:02d}"` for a non-negative index. -/
def pad2 (n : Nat) : String := if n < 10 then "0" ++ toString n else toString n

/-- The clip filename built by `generate_audio_for_sound_sources`
(`audioldm2.py` lines 146-149).  Both dictionary keys are always present in a
record produced by `generate_prompts`; `str(item["play_method"])` stringifies
the absent value to `"None"`. -/
def out_wav_name (idx : Nat) (item : PromptRecord) : String :=
  pad2 idx ++ "_" ++ sanitize_filename item.source_name ++ "_" ++
    sanitize_filename (pyStr item.play_method) ++ ".wav"

/-- The loop `for idx, item in enumerate(prompts, 1)` building clip names, as
a recursion carrying the 1-based counter. -/
def clipNamesFrom : Nat → List PromptRecord → List String
  | _, [] => []
  | idx, item :: rest => out_wav_name idx item :: clipNamesFrom (idx + 1) rest

/-- The ordered list of clip filenames for one descriptor's prompt list. -/
def clipNames (prompts : List PromptRecord) : List String := clipNamesFrom 1 prompts

/-- The sum of variant counts of the first `i` sources: the flat position at
which source `i`'s records begin in the output of `generate_prompts`. -/
def flatOffset (srcs : List SoundSource) (i : Nat) : Nat :=
  ((srcs.take i).map fun s => (s.variants.getD []).length).sum

/-! ## JSON values: round-trip of the PromptRecord list (`prompts.json`) and
the legacy-key shim of the driver.

`json.dump` followed by `json.load` is modelled at the level of JSON values:
for the finite, string-keyed data at hand the text encoding is a faithful
transport of the value tree.  -/

/-- A JSON value. -/
inductive JVal where
  | null
  | bool (b : Bool)
  | num (n : Int)
  | str (s : String)
  | arr (elems : List JVal)
  | obj (fields : List (String × JVal))
deriving Repr

/-- Serialization of one record dictionary (`audio_prompt.py` lines 58-62 give
the three keys; `json.dump` writes `None` as `null`). -/
def PromptRecord.toJson (r : PromptRecord) : JVal :=
  .obj [("source_name", .str r.source_name),
        ("play_method", match r.play_method with | none => .null | some s => .str s),
        ("prompt", .str r.prompt)]

/-- Serialization of the record list (`json.dump(prompts, ...)`). -/
def promptsToJson (prompts : List PromptRecord) : JVal :=
  .arr (prompts.map PromptRecord.toJson)

/-- Reading a JSON string back. -/
def jStr? : JVal → Option String
  | .str s => some s
  | _ => none

/-- Reading a JSON string-or-null back (`play_method` may be `null`). -/
def jStrOrNull? : JVal → Option (Option String)
  | .null => some none
  | .str s => some (some s)
  | _ => none

/-- Re-parsing one record from its JSON value. -/
def PromptRecord.fromJson : JVal → Option PromptRecord
  | .obj fields => do
      let sn ← (fields.lookup "source_name").bind jStr?
      let pm ← (fields.lookup "play_method").bind jStrOrNull?
      let pr ← (fields.lookup "prompt").bind jStr?
      some { source_name := sn, play_method := pm, prompt := pr }
  | _ => none

/-- Re-parsing an ordered record list from a JSON array, element by element. -/
def recordsFromJson : List JVal → Option (List PromptRecord)
  | [] => some []
  | v :: rest => do
      let r ← PromptRecord.fromJson v
      let rs ← recordsFromJson rest
      some (r :: rs)

/-- Re-parsing the whole `prompts.json` document. -/
def promptsFromJson : JVal → Option (List PromptRecord)
  | .arr elems => recordsFromJson elems
  | _ => none

/-- A parsed JSON object as the driver sees it: an ordered dictionary. -/
abbrev PyDict := List (String × JVal)

/-- Model of `_objects_to_sound_sources_if_needed` (`audioldm2.py` lines 43-52).
`{**data, "sound_sources": v}` adds the new key at the end when absent. -/
def objects_to_sound_sources_if_needed (data : PyDict) : PyDict :=
  if (data.lookup "sound_sources").isSome then data
  else
    match data.lookup "objects" with
    | some (.arr elems) => data ++ [("sound_sources", .arr elems)]
    | _ => data

/-! ## Value-level view of the instrument field (for the non-totality claim)

`generate_prompts` reads `variant.get("mapping_to_music_instrument")` and runs
`instrument and instrument.lower() != "none"` on it: on a truthy non-string
value `.lower()` raises `AttributeError`.  To state this, the instrument field
is generalized from `Option String` to an arbitrary Python scalar and the
function made `Except`-valued; everything else is as in `generate_prompts`. -/

/-- An exception escaping `generate_prompts`. -/
inductive PyErr where
  | attributeError
deriving Repr, DecidableEq

/-- A Python scalar that may sit in the `mapping_to_music_instrument` slot. -/
inductive PyScalar where
  | vNone
  | vBool (b : Bool)
  | vInt (n : Int)
  | vStr (s : String)
deriving Repr, DecidableEq

/-- Python truthiness of a scalar. -/
def PyScalar.truthy : PyScalar → Bool
  | .vNone => false
  | .vBool b => b
  | .vInt n => n ≠ 0
  | .vStr s => s ≠ ""

/-- Python `str()` of a scalar. -/
def PyScalar.toStr : PyScalar → String
  | .vNone => "None"
  | .vBool true => "True"
  | .vBool false => "False"
  | .vInt n => toString n
  | .vStr s => s

/-- Python `.lower()`: defined on strings, `AttributeError` otherwise. -/
def PyScalar.lowerPy : PyScalar → Except PyErr String
  | .vStr s => .ok (pyLower s)
  | _ => .error .attributeError

/-- Python `str()` of the optional instrument value. -/
def pyScalarStr : Option PyScalar → String
  | none => "None"
  | some v => v.toStr

/-- A variant whose instrument slot holds an arbitrary scalar. -/
structure VariantV where
  play_method : Option String
  timbre : Option (List String)
  mapping_to_music_instrument : Option PyScalar
deriving Repr, DecidableEq

/-- A sound source over `VariantV`. -/
structure SoundSourceV where
  name : Option String
  material : Option String
  variants : Option (List VariantV)
deriving Repr, DecidableEq

/-- A scene descriptor over `SoundSourceV`. -/
structure SceneDataV where
  scene_description : Option String
  mood_description : Option String
  sound_sources : Option (List SoundSourceV)
deriving Repr, DecidableEq

/-- Core-prompt selection (`audio_prompt.py` lines 26-50) with the instrument
slot value-level: the `elif instrument and instrument.lower() != "none"` test
short-circuits on falsy values and calls `.lower()` on truthy ones. -/
def corePromptV (custom_templates : List (String × Template)) (name material : String)
    (variant : VariantV) : Except PyErr String :=
  let timbre_str := String.intercalate ", " (variant.timbre.getD [])
  let pm := pyStr variant.play_method
  match lookupTemplate custom_templates variant.play_method with
  | some template =>
      .ok (renderTemplate template name material pm timbre_str
        (pyScalarStr variant.mapping_to_music_instrument))
  | none =>
      match variant.mapping_to_music_instrument with
      | some instr =>
          if instr.truthy then do
            let low ← instr.lowerPy
            if low ≠ "none" then
              pure (instrCore name material pm timbre_str instr.toStr)
            else
              pure (plainCore name material pm timbre_str)
          else .ok (plainCore name material pm timbre_str)
      | none => .ok (plainCore name material pm timbre_str)

/-- Model of `generate_prompts` with the instrument slot value-level: evaluation either
returns the full record list or propagates the exception of the first failing
variant, exactly as the Python loop would. -/
def generate_promptsV (data : SceneDataV) (custom_templates : List (String × Template)) :
    Except PyErr (List PromptRecord) := do
  let scene := data.scene_description.getD "A neutral scene"
  let mood := data.mood_description.getD "a neutral mood"
  let nested ← (data.sound_sources.getD []).mapM fun source => do
    let name := source.name.getD "an object"
    let material := source.material.getD "unknown material"
    (source.variants.getD []).mapM fun variant => do
      let core ← corePromptV custom_templates name material variant
      pure { source_name := name
             play_method := variant.play_method
             prompt := wrapPrompt scene mood core : PromptRecord }
  pure nested.flatten

/-! ## Concrete inputs used by witnesses and counterexamples -/

/-- The prompt text of the first record of a list (used only to state closed
facts about singleton outputs). -/
def firstPrompt (l : List PromptRecord) : String := (l.headD ⟨"", none, ""⟩).prompt

/-- The spec §8 example variant: rustling leaf with no instrument mapping. -/
def exLeafVariant : Variant := ⟨some "rustle", some ["soft", "airy"], some "None"⟩

/-- The spec §8 example scene descriptor. -/
def exLeafData : SceneData :=
  ⟨some "a quiet forest", some "calm",
   some [⟨some "leaf", some "organic", some [exLeafVariant]⟩]⟩

/-- A variant whose instrument key is present but holds the empty string. -/
def emptyInstrVariant : Variant := ⟨some "tap", some [], some ""⟩

/-- A descriptor holding exactly `emptyInstrVariant`. -/
def emptyInstrData : SceneData :=
  ⟨some "a street", some "calm", some [⟨some "box", some "wood", some [emptyInstrVariant]⟩]⟩

/-- First sample source: one variant. -/
def wSourceA : SoundSource :=
  ⟨some "bell", some "metal", some [⟨some "strike", some ["bright"], some "None"⟩]⟩

/-- Second sample source: two variants. -/
def wSourceB : SoundSource :=
  ⟨some "door", some "wood", some [⟨some "knock", some ["dull"], some "None"⟩,
                                   ⟨some "creak", some ["rough"], some "violin"⟩]⟩

/-- The second variant of `wSourceB`. -/
def wVariantB2 : Variant := ⟨some "creak", some ["rough"], some "violin"⟩

/-- A sample descriptor with two sources holding one and two variants. -/
def wData : SceneData := ⟨some "a hallway", some "tense", some [wSourceA, wSourceB]⟩

/-- A custom template rendering all five placeholders. -/
def wTemplate : Template :=
  [.lit "N=", .name, .lit " M=", .material, .lit " P=", .play_method,
   .lit " T=", .timbre_str, .lit " I=", .instrument]

/-- A descriptor exercising a variant with no `play_method` key. -/
def noPmData : SceneData :=
  ⟨some "a room", some "quiet", some [⟨some "fan", some "plastic",
    some [⟨none, some ["soft"], some "None"⟩]⟩]⟩

/-- Statement-side count, following the claim's words, of the required keys
missing from one variant (`play_method`, `timbre`,
`mapping_to_music_instrument`). -/
def missingVariantKeys (v : Variant) : Nat :=
  (if v.play_method.isNone then 1 else 0) + (if v.timbre.isNone then 1 else 0) +
  (if v.mapping_to_music_instrument.isNone then 1 else 0)

/-- Statement-side count of the required keys missing from one source (`name`,
`material`, `variants`), its scanned variants included. -/
def missingSourceKeys (s : SoundSource) : Nat :=
  (if s.name.isNone then 1 else 0) + (if s.material.isNone then 1 else 0) +
  (if s.variants.isNone then 1 else 0) + ((s.variants.getD []).map missingVariantKeys).sum

/-- Statement-side count of the missing required top-level keys. -/
def missingTopKeys (data : SceneData) : Nat :=
  (if data.scene_description.isNone then 1 else 0) +
  (if data.mood_description.isNone then 1 else 0) +
  (if data.sound_sources.isNone then 1 else 0)

/-- A descriptor with defects at every level: missing `mood_description`, a
source missing `material`, a variant missing `play_method`, and a second
source missing `variants`. -/
def multiDefectData : SceneData :=
  ⟨some "x", none,
   some [⟨some "drum", none, some [⟨none, some ["boom"], some "None"⟩]⟩,
         ⟨some "cat", some "fur", none⟩]⟩

/-- A descriptor whose only structural defect is the missing
`mood_description`. -/
def moodOnlyMissingData : SceneData :=
  ⟨some "a quiet forest", none, some [⟨some "leaf", some "organic", some [exLeafVariant]⟩]⟩

/-- A value-level descriptor whose single variant maps the instrument key to
the number `7`: a truthy non-string. -/
def numericInstrData : SceneDataV :=
  ⟨some "s", some "m", some [⟨some "obj", some "wood",
    some [⟨some "tap", some [], some (.vInt 7)⟩]⟩]⟩

set_option maxRecDepth 100000

/-! ## Helper lemmas -/

theorem strAppend_assoc (a b c : String) : a ++ b ++ c = a ++ (b ++ c) := by
  apply String.ext
  simp [String.data_append]

theorem leadMatch_refl_append : ∀ (p r : List Char), leadMatch p (p ++ r) = true
  | [], _ => rfl
  | c :: p, r => by simp [leadMatch, leadMatch_refl_append p r]

theorem hasPat_nil_pat : ∀ (l : List Char), hasPat l [] = true
  | [] => rfl
  | _ :: cs => by simp [hasPat, leadMatch]

theorem hasPat_parts : ∀ (pre pat rest : List Char), hasPat (pre ++ (pat ++ rest)) pat = true
  | [], [], rest => hasPat_nil_pat rest
  | [], c :: ps, rest => by
      show hasPat ((c :: ps) ++ rest) (c :: ps) = true
      rw [List.cons_append]
      simp [hasPat, leadMatch, leadMatch_refl_append ps rest]
  | d :: pre, pat, rest => by
      simp [hasPat, hasPat_parts pre pat rest]

theorem strContains_of_parts (s pre pat post : String) (h : s = pre ++ (pat ++ post)) :
    strContains s pat = true := by
  subst h
  unfold strContains
  rw [String.data_append, String.data_append]
  exact hasPat_parts _ _ _

theorem promptRecordOf_mem (data : SceneData) (tmpl : List (String × Template))
    {source : SoundSource} {variant : Variant}
    (hs : source ∈ data.sound_sources.getD []) (hv : variant ∈ source.variants.getD []) :
    promptRecordOf (sceneOf data) (moodOf data) tmpl (sourceNameOf source)
      (sourceMaterialOf source) variant ∈ generate_prompts data tmpl := by
  unfold generate_prompts
  exact List.mem_flatMap.mpr ⟨source, hs, List.mem_map_of_mem _ hv⟩

theorem flatMap_pos {α β : Type} (f : α → List β) :
    ∀ (l : List α) (i j : Nat) (hi : i < l.length), j < (f (l.get ⟨i, hi⟩)).length →
      (l.flatMap f)[(((l.take i).map fun a => (f a).length).sum + j)]? =
        (f (l.get ⟨i, hi⟩))[j]?
  | [], i, j, hi, _ => absurd hi (by simp)
  | a :: t, 0, j, _, hj => by
      simp only [List.take_zero, List.map_nil, List.sum_nil, Nat.zero_add,
        List.flatMap_cons, List.get]
      exact List.getElem?_append_left hj
  | a :: t, i + 1, j, hi, hj => by
      simp only [List.take_succ_cons, List.map_cons, List.sum_cons, List.flatMap_cons,
        List.get]
      rw [Nat.add_assoc,
        List.getElem?_append_right (by omega : (f a).length ≤ (f a).length + _),
        Nat.add_sub_cancel_left]
      exact flatMap_pos f t i j (by simpa using hi) hj

theorem foldl_add_sum {α : Type} (g : α → Nat) :
    ∀ (l : List α) (n : Nat), l.foldl (fun t a => t + g a) n = n + (l.map g).sum
  | [], n => by simp
  | a :: l, n => by
      simp [List.foldl, foldl_add_sum g l (n + g a), Nat.add_assoc]

theorem count_total_variants_eq_sum (data : SceneData) :
    count_total_variants data =
      ((data.sound_sources.getD []).map fun s => (s.variants.getD []).length).sum := by
  unfold count_total_variants
  rw [foldl_add_sum]
  simp

theorem variantsScan_nil (i : Nat) :
    ∀ (vs : List Variant) (j : Nat),
      (∀ v ∈ vs, v.play_method.isSome = true ∧ v.timbre.isSome = true ∧
        v.mapping_to_music_instrument.isSome = true) →
      variantsScan i j vs = []
  | [], _, _ => rfl
  | v :: vs, j, h => by
      obtain ⟨h1, h2, h3⟩ := h v (by simp)
      obtain ⟨x1, e1⟩ := Option.isSome_iff_exists.mp h1
      obtain ⟨x2, e2⟩ := Option.isSome_iff_exists.mp h2
      obtain ⟨x3, e3⟩ := Option.isSome_iff_exists.mp h3
      simp [variantsScan, variantIssues, e1, e2, e3,
        variantsScan_nil i vs (j + 1) fun v hv => h v (by simp [hv])]

theorem sourcesScan_nil :
    ∀ (srcs : List SoundSource) (i : Nat),
      (∀ s ∈ srcs, s.name.isSome = true ∧ s.material.isSome = true ∧
        s.variants.isSome = true ∧
        ∀ v ∈ s.variants.getD [], v.play_method.isSome = true ∧ v.timbre.isSome = true ∧
          v.mapping_to_music_instrument.isSome = true) →
      sourcesScan i srcs = []
  | [], _, _ => rfl
  | s :: srcs, i, h => by
      obtain ⟨h1, h2, h3, h4⟩ := h s (by simp)
      obtain ⟨x1, e1⟩ := Option.isSome_iff_exists.mp h1
      obtain ⟨x2, e2⟩ := Option.isSome_iff_exists.mp h2
      obtain ⟨vs, e3⟩ := Option.isSome_iff_exists.mp h3
      have h4x : ∀ v ∈ vs, v.play_method.isSome = true ∧ v.timbre.isSome = true ∧
          v.mapping_to_music_instrument.isSome = true := by
        rw [e3] at h4
        simpa using h4
      simp [sourcesScan, sourceIssues, e1, e2, e3, variantsScan_nil i vs 0 h4x,
        sourcesScan_nil srcs (i + 1) fun s hs => h s (by simp [hs])]

theorem fromJson_toJson (r : PromptRecord) : PromptRecord.fromJson r.toJson = some r := by
  cases r with
  | mk sn pm pr => cases pm <;> rfl

theorem recordsFromJson_map :
    ∀ (l : List PromptRecord), recordsFromJson (l.map PromptRecord.toJson) = some l
  | [] => rfl
  | r :: t => by
      simp [recordsFromJson, fromJson_toJson, recordsFromJson_map t]

theorem clipNamesFrom_pos :
    ∀ (l : List PromptRecord) (base k : Nat) (hk : k < l.length),
      (clipNamesFrom base l)[k]? = some (out_wav_name (base + k) (l.get ⟨k, hk⟩))
  | [], _, k, hk => absurd hk (by simp)
  | item :: rest, base, 0, _ => by simp [clipNamesFrom]
  | item :: rest, base, k + 1, hk => by
      simp only [clipNamesFrom, List.getElem?_cons_succ, List.get]
      rw [clipNamesFrom_pos rest (base + 1) k (by simpa using hk)]
      congr 2
      omega

/-! ## Claims -/

/-- C8: for every PromptRecord list produced by `generate_prompts`, serializing
it to JSON and re-parsing the JSON yields an identical ordered sequence of
records (same length, same records, same order). -/
theorem prompts_json_roundtrip (data : SceneData) (tmpl : List (String × Template)) :
    promptsFromJson (promptsToJson (generate_prompts data tmpl)) =
      some (generate_prompts data tmpl) := by
  unfold promptsToJson promptsFromJson
  exact recordsFromJson_map _

/-- C9: the driver accepts legacy descriptors keyed `objects` instead of
`sound_sources`: the shim returns its input unchanged when `sound_sources` is
present; otherwise, when `objects` is present and holds a list, it returns the
input extended with `sound_sources` bound to that same list; any other input
is returned unchanged. -/
theorem objects_shim_cases (data : PyDict) :
    ((data.lookup "sound_sources").isSome = true →
      objects_to_sound_sources_if_needed data = data) ∧
    (∀ elems, data.lookup "sound_sources" = none →
      data.lookup "objects" = some (JVal.arr elems) →
      objects_to_sound_sources_if_needed data = data ++ [("sound_sources", JVal.arr elems)]) ∧
    (data.lookup "sound_sources" = none →
      (∀ elems, data.lookup "objects" ≠ some (JVal.arr elems)) →
      objects_to_sound_sources_if_needed data = data) := by
  refine ⟨fun h => ?_, fun elems h1 h2 => ?_, fun h1 h2 => ?_⟩
  · simp [objects_to_sound_sources_if_needed, h]
  · simp [objects_to_sound_sources_if_needed, h1, h2]
  · cases hobj : data.lookup "objects" with
    | none => simp [objects_to_sound_sources_if_needed, h1, hobj]
    | some v =>
        cases v with
        | arr elems => exact absurd hobj (h2 elems)
        | null => simp [objects_to_sound_sources_if_needed, h1, hobj]
        | bool b => simp [objects_to_sound_sources_if_needed, h1, hobj]
        | num n => simp [objects_to_sound_sources_if_needed, h1, hobj]
        | str s => simp [objects_to_sound_sources_if_needed, h1, hobj]
        | obj fields => simp [objects_to_sound_sources_if_needed, h1, hobj]

/-- Witness for C9: the shim applied to a legacy dictionary holding only an
`objects` list appends a `sound_sources` binding to the same list. -/
theorem objects_shim_cases_witness :
    objects_to_sound_sources_if_needed [("objects", JVal.arr [JVal.num 1])] =
      [("objects", JVal.arr [JVal.num 1]), ("sound_sources", JVal.arr [JVal.num 1])] :=
  (objects_shim_cases [("objects", JVal.arr [JVal.num 1])]).2.1 [JVal.num 1] rfl rfl

/-- C10: `generate_prompts` is not total on dictionary-shaped inputs: on a
variant whose `mapping_to_music_instrument` is the truthy non-string value `7`
and whose `play_method` matches no custom-template key, evaluation raises
`AttributeError` (from `.lower()` in the case-insensitive comparison) instead
of returning a list. -/
theorem generate_prompts_not_total :
    generate_promptsV numericInstrData [] = .error .attributeError := rfl

/-- C1: `generate_prompts` returns exactly one PromptRecord per variant: the
output length is the sum over all sound sources of their variant-list lengths
(a missing `variants` key counting as zero), which equals
`count_total_variants` on the same input; and the records appear in
source-major, variant-minor order: the record at flat position
`flatOffset srcs i + j` is the one built from source `i`'s variant `j`. -/
theorem generate_prompts_one_record_per_variant (data : SceneData)
    (tmpl : List (String × Template)) :
    (generate_prompts data tmpl).length =
      ((data.sound_sources.getD []).map fun s => (s.variants.getD []).length).sum ∧
    (generate_prompts data tmpl).length = count_total_variants data ∧
    ∀ (i j : Nat) (hi : i < (data.sound_sources.getD []).length)
      (hj : j < (((data.sound_sources.getD []).get ⟨i, hi⟩).variants.getD []).length),
      (generate_prompts data tmpl)[flatOffset (data.sound_sources.getD []) i + j]? =
        some (promptRecordOf (sceneOf data) (moodOf data) tmpl
          (sourceNameOf ((data.sound_sources.getD []).get ⟨i, hi⟩))
          (sourceMaterialOf ((data.sound_sources.getD []).get ⟨i, hi⟩))
          ((((data.sound_sources.getD []).get ⟨i, hi⟩).variants.getD []).get ⟨j, hj⟩)) := by
  have hlen : (generate_prompts data tmpl).length =
      ((data.sound_sources.getD []).map fun s => (s.variants.getD []).length).sum := by
    unfold generate_prompts
    rw [List.length_flatMap]
    congr 1
    apply List.map_congr_left
    intro s _
    exact List.length_map _ _
  refine ⟨hlen, hlen.trans (count_total_variants_eq_sum data).symm, fun i j hi hj => ?_⟩
  unfold generate_prompts flatOffset
  have h := flatMap_pos
    (fun source => (source.variants.getD []).map fun variant =>
      promptRecordOf (sceneOf data) (moodOf data) tmpl (sourceNameOf source)
        (sourceMaterialOf source) variant)
    (data.sound_sources.getD []) i j hi (by simpa using hj)
  rw [show (((data.sound_sources.getD []).take i).map
        fun s => (s.variants.getD []).length).sum =
      (((data.sound_sources.getD []).take i).map
        fun a => ((a.variants.getD []).map fun variant =>
          promptRecordOf (sceneOf data) (moodOf data) tmpl (sourceNameOf a)
            (sourceMaterialOf a) variant).length).sum from by
    congr 1
    apply List.map_congr_left
    intro s _
    exact (List.length_map _ _).symm]
  rw [h, List.getElem?_map, List.getElem?_eq_getElem hj]
  rfl

/-- Witness for C1 at a two-source descriptor (one variant, then two): the
length facts and the flat position of source 1, variant 1. -/
theorem generate_prompts_one_record_per_variant_witness :
    (generate_prompts wData []).length = count_total_variants wData ∧
    (generate_prompts wData [])[flatOffset (wData.sound_sources.getD []) 1 + 1]? =
      some (promptRecordOf (sceneOf wData) (moodOf wData) [] (sourceNameOf wSourceB)
        (sourceMaterialOf wSourceB) wVariantB2) := by
  refine ⟨(generate_prompts_one_record_per_variant wData []).2.1, ?_⟩
  have h := (generate_prompts_one_record_per_variant wData []).2.2 1 1 (by decide) (by decide)
  exact h.trans (by decide)

theorem length_ite_singleton (p : Prop) [Decidable p] (a : String) :
    (if p then [a] else ([] : List String)).length = if p then 1 else 0 := by
  split <;> rfl

theorem variantIssues_length (i j : Nat) (v : Variant) :
    (variantIssues i j v).length = missingVariantKeys v := by
  cases h1 : v.play_method <;> cases h2 : v.timbre <;>
    cases h3 : v.mapping_to_music_instrument <;>
    simp [variantIssues, missingVariantKeys, h1, h2, h3]

theorem variantsScan_length (i : Nat) :
    ∀ (vs : List Variant) (j : Nat),
      (variantsScan i j vs).length = (vs.map missingVariantKeys).sum
  | [], _ => rfl
  | v :: vs, j => by
      simp [variantsScan, variantIssues_length, variantsScan_length i vs (j + 1)]

theorem sourceIssues_length (i : Nat) (s : SoundSource) :
    (sourceIssues i s).length = missingSourceKeys s := by
  cases h3 : s.variants <;>
    simp [sourceIssues, missingSourceKeys, h3, variantsScan_length, length_ite_singleton]
  all_goals omega

theorem sourcesScan_length :
    ∀ (srcs : List SoundSource) (i : Nat),
      (sourcesScan i srcs).length = (srcs.map missingSourceKeys).sum
  | [], _ => rfl
  | s :: srcs, i => by
      simp [sourcesScan, sourceIssues_length, sourcesScan_length srcs (i + 1)]

theorem validate_eq_top_scan (data : SceneData) :
    validate_json_structure data =
      (if data.scene_description.isNone then ["Missing field: scene_description"] else []) ++
      (if data.mood_description.isNone then ["Missing field: mood_description"] else []) ++
      (if data.sound_sources.isNone then ["Missing field: sound_sources"] else []) ++
      sourcesScan 0 (data.sound_sources.getD []) := by
  cases h : data.sound_sources <;> simp [validate_json_structure, h, sourcesScan]

theorem sourceIssues_eq_keys_scan (i : Nat) (s : SoundSource) :
    sourceIssues i s =
      (if s.name.isNone then ["sound_sources[" ++ toString i ++ "] missing field: name"]
        else []) ++
      (if s.material.isNone then
        ["sound_sources[" ++ toString i ++ "] missing field: material"] else []) ++
      (if s.variants.isNone then
        ["sound_sources[" ++ toString i ++ "] missing field: variants"] else []) ++
      variantsScan i 0 (s.variants.getD []) := by
  cases h : s.variants <;> simp [sourceIssues, h, variantsScan]

theorem mem_variantsScan_of :
    ∀ (vs : List Variant) (i base j : Nat) (hj : j < vs.length) {msg : String},
      msg ∈ variantIssues i (base + j) (vs.get ⟨j, hj⟩) → msg ∈ variantsScan i base vs
  | [], _, _, j, hj, _, _ => absurd hj (by simp)
  | v :: vs, i, base, 0, _, msg, h =>
      List.mem_append_left _ (by simpa using h)
  | v :: vs, i, base, j + 1, hj, msg, h => by
      refine List.mem_append_right _ ?_
      have e : base + (j + 1) = (base + 1) + j := by omega
      rw [e] at h
      exact mem_variantsScan_of vs i (base + 1) j (by simpa using hj) (by simpa using h)

theorem mem_variantsScan_at (vs : List Variant) (i j : Nat) (hj : j < vs.length)
    {msg : String} (h : msg ∈ variantIssues i j (vs.get ⟨j, hj⟩)) :
    msg ∈ variantsScan i 0 vs :=
  mem_variantsScan_of vs i 0 j hj (by rw [Nat.zero_add]; exact h)

theorem mem_sourcesScan_of :
    ∀ (srcs : List SoundSource) (base i : Nat) (hi : i < srcs.length) {msg : String},
      msg ∈ sourceIssues (base + i) (srcs.get ⟨i, hi⟩) → msg ∈ sourcesScan base srcs
  | [], _, i, hi, _, _ => absurd hi (by simp)
  | s :: srcs, base, 0, _, msg, h =>
      List.mem_append_left _ (by simpa using h)
  | s :: srcs, base, i + 1, hi, msg, h => by
      refine List.mem_append_right _ ?_
      have e : base + (i + 1) = (base + 1) + i := by omega
      rw [e] at h
      exact mem_sourcesScan_of srcs (base + 1) i (by simpa using hi) (by simpa using h)

theorem mem_sourcesScan_at (srcs : List SoundSource) (i : Nat) (hi : i < srcs.length)
    {msg : String} (h : msg ∈ sourceIssues i (srcs.get ⟨i, hi⟩)) :
    msg ∈ sourcesScan 0 srcs :=
  mem_sourcesScan_of srcs 0 i hi (by rw [Nat.zero_add]; exact h)

/-- C5: the validator collects every structural problem instead of stopping at
the first: on an arbitrary descriptor the issues list has exactly one entry
per missing required key at every level (its length equals the total count of
missing top-level, per-source, and per-variant required keys), and every
missing key contributes an issue naming the key at its index-qualified path;
in particular, a descriptor missing only `mood_description` yields exactly the
one issue naming that field, and `count_total_variants` returns the variant
total of the structurally present `sound_sources` regardless of any defects. -/
theorem validator_collects_every_missing_key (data : SceneData) :
    (validate_json_structure data).length =
      missingTopKeys data + ((data.sound_sources.getD []).map missingSourceKeys).sum ∧
    (data.scene_description = none →
      "Missing field: scene_description" ∈ validate_json_structure data) ∧
    (data.mood_description = none →
      "Missing field: mood_description" ∈ validate_json_structure data) ∧
    (data.sound_sources = none →
      "Missing field: sound_sources" ∈ validate_json_structure data) ∧
    (∀ (i : Nat) (hi : i < (data.sound_sources.getD []).length),
      (((data.sound_sources.getD []).get ⟨i, hi⟩).name = none →
        "sound_sources[" ++ toString i ++ "] missing field: name" ∈
          validate_json_structure data) ∧
      (((data.sound_sources.getD []).get ⟨i, hi⟩).material = none →
        "sound_sources[" ++ toString i ++ "] missing field: material" ∈
          validate_json_structure data) ∧
      (((data.sound_sources.getD []).get ⟨i, hi⟩).variants = none →
        "sound_sources[" ++ toString i ++ "] missing field: variants" ∈
          validate_json_structure data) ∧
      ∀ (j : Nat)
        (hj : j < ((((data.sound_sources.getD []).get ⟨i, hi⟩).variants.getD []).length)),
        (((((data.sound_sources.getD []).get ⟨i, hi⟩).variants.getD []).get
            ⟨j, hj⟩).play_method = none →
          "sound_sources[" ++ toString i ++ "].variants[" ++ toString j ++
            "] missing field: play_method" ∈ validate_json_structure data) ∧
        (((((data.sound_sources.getD []).get ⟨i, hi⟩).variants.getD []).get
            ⟨j, hj⟩).timbre = none →
          "sound_sources[" ++ toString i ++ "].variants[" ++ toString j ++
            "] missing field: timbre" ∈ validate_json_structure data) ∧
        (((((data.sound_sources.getD []).get ⟨i, hi⟩).variants.getD []).get
            ⟨j, hj⟩).mapping_to_music_instrument = none →
          "sound_sources[" ++ toString i ++ "].variants[" ++ toString j ++
            "] missing field: mapping_to_music_instrument" ∈
            validate_json_structure data)) ∧
    ((data.scene_description.isSome = true ∧ data.mood_description = none ∧
      data.sound_sources.isSome = true ∧
      ∀ s ∈ data.sound_sources.getD [], s.name.isSome = true ∧
        s.material.isSome = true ∧ s.variants.isSome = true ∧
        ∀ v ∈ s.variants.getD [], v.play_method.isSome = true ∧ v.timbre.isSome = true ∧
          v.mapping_to_music_instrument.isSome = true) →
      validate_json_structure data = ["Missing field: mood_description"]) ∧
    count_total_variants data =
      ((data.sound_sources.getD []).map fun s => (s.variants.getD []).length).sum := by
  refine ⟨?_, ?_, ?_, ?_, ?_, ?_, count_total_variants_eq_sum data⟩
  · rw [validate_eq_top_scan]
    simp only [List.length_append, length_ite_singleton, sourcesScan_length, missingTopKeys]
  · intro h
    rw [validate_eq_top_scan]
    simp [h]
  · intro h
    rw [validate_eq_top_scan]
    simp [h]
  · intro h
    rw [validate_eq_top_scan]
    simp [h]
  · intro i hi
    refine ⟨fun h => ?_, fun h => ?_, fun h => ?_, fun j hj =>
      ⟨fun h => ?_, fun h => ?_, fun h => ?_⟩⟩
    · rw [validate_eq_top_scan]
      refine List.mem_append_right _ (mem_sourcesScan_at _ i hi ?_)
      rw [sourceIssues_eq_keys_scan, h]
      simp
    · rw [validate_eq_top_scan]
      refine List.mem_append_right _ (mem_sourcesScan_at _ i hi ?_)
      rw [sourceIssues_eq_keys_scan, h]
      simp
    · rw [validate_eq_top_scan]
      refine List.mem_append_right _ (mem_sourcesScan_at _ i hi ?_)
      rw [sourceIssues_eq_keys_scan, h]
      simp
    · rw [validate_eq_top_scan]
      refine List.mem_append_right _ (mem_sourcesScan_at _ i hi ?_)
      rw [sourceIssues_eq_keys_scan]
      refine List.mem_append_right _ (mem_variantsScan_at _ i j hj ?_)
      simp only [variantIssues]
      rw [h]
      simp
    · rw [validate_eq_top_scan]
      refine List.mem_append_right _ (mem_sourcesScan_at _ i hi ?_)
      rw [sourceIssues_eq_keys_scan]
      refine List.mem_append_right _ (mem_variantsScan_at _ i j hj ?_)
      simp only [variantIssues]
      rw [h]
      simp
    · rw [validate_eq_top_scan]
      refine List.mem_append_right _ (mem_sourcesScan_at _ i hi ?_)
      rw [sourceIssues_eq_keys_scan]
      refine List.mem_append_right _ (mem_variantsScan_at _ i j hj ?_)
      simp only [variantIssues]
      rw [h]
      simp
  · rintro ⟨hscene, hmood, hsrcs, hwell⟩
    obtain ⟨sc, esc⟩ := Option.isSome_iff_exists.mp hscene
    obtain ⟨srcs, esrcs⟩ := Option.isSome_iff_exists.mp hsrcs
    have hwell2 : ∀ s ∈ srcs, s.name.isSome = true ∧ s.material.isSome = true ∧
        s.variants.isSome = true ∧
        ∀ v ∈ s.variants.getD [], v.play_method.isSome = true ∧ v.timbre.isSome = true ∧
          v.mapping_to_music_instrument.isSome = true := by
      rw [esrcs] at hwell
      simpa using hwell
    rw [validate_eq_top_scan]
    simp [esc, esrcs, hmood, sourcesScan_nil srcs 0 hwell2]

/-- Witness for C5: on the multi-defect descriptor, the issue count equals the
number of missing keys and each of the four defects (top-level, per-source,
per-variant, second source) contributes its index-qualified issue; on the
descriptor missing only `mood_description`, exactly that one issue results. -/
theorem validator_collects_every_missing_key_witness :
    (validate_json_structure multiDefectData).length =
      missingTopKeys multiDefectData +
        ((multiDefectData.sound_sources.getD []).map missingSourceKeys).sum ∧
    "Missing field: mood_description" ∈ validate_json_structure multiDefectData ∧
    "sound_sources[" ++ toString 0 ++ "] missing field: material" ∈
      validate_json_structure multiDefectData ∧
    "sound_sources[" ++ toString 0 ++ "].variants[" ++ toString 0 ++
      "] missing field: play_method" ∈ validate_json_structure multiDefectData ∧
    "sound_sources[" ++ toString 1 ++ "] missing field: variants" ∈
      validate_json_structure multiDefectData ∧
    validate_json_structure moodOnlyMissingData = ["Missing field: mood_description"] ∧
    count_total_variants moodOnlyMissingData = 1 := by
  have h := validator_collects_every_missing_key multiDefectData
  have h2 := validator_collects_every_missing_key moodOnlyMissingData
  refine ⟨h.1, h.2.2.1 rfl, (h.2.2.2.2.1 0 (by decide)).2.1 rfl,
    ((h.2.2.2.2.1 0 (by decide)).2.2.2 0 (by decide)).1 rfl,
    (h.2.2.2.2.1 1 (by decide)).2.2.1 rfl,
    h2.2.2.2.2.2.1 ⟨by decide, rfl, by decide, by decide⟩,
    h2.2.2.2.2.2.2.trans (by decide)⟩

/-- C7: for each processed descriptor, the clip for the record at 0-based flat
position `k` (the `k+1`-st PromptRecord) is named `NN_<source>_<method>.wav`,
where `NN` is the 1-based sequence number zero-padded to 2 digits and the two
parts are the record's `source_name` and stringified `play_method` after
filename sanitization. -/
theorem clip_names_follow_records (data : SceneData) (k : Nat)
    (hk : k < (generate_prompts data []).length) :
    (clipNames (generate_prompts data []))[k]? =
      some (pad2 (k + 1) ++ "_" ++
        sanitize_filename ((generate_prompts data []).get ⟨k, hk⟩).source_name ++ "_" ++
        sanitize_filename (pyStr ((generate_prompts data []).get ⟨k, hk⟩).play_method) ++
        ".wav") := by
  unfold clipNames
  rw [clipNamesFrom_pos (generate_prompts data []) 1 k hk]
  rw [Nat.add_comm 1 k]
  rfl

/-- Witness for C7: the first clip of the spec §8 example descriptor. -/
theorem clip_names_follow_records_witness :
    (clipNames (generate_prompts exLeafData []))[0]? = some "01_leaf_rustle.wav" := by
  have h := clip_names_follow_records exLeafData 0 (by decide)
  exact h.trans (by decide)

/-- C2: for every variant whose `play_method` is a key of the custom-template
mapping, the core prompt is exactly that template rendered with the five
substitutions (`name`, `material`, `play_method`, `timbre_str`, and the
stringified `mapping_to_music_instrument` as `instrument`), regardless of the
instrument value; the record's prompt is the context wrapper around that
rendering alone, so neither fixed template contributes any text. -/
theorem custom_template_exact_render (data : SceneData) (tmpl : List (String × Template))
    (source : SoundSource) (variant : Variant) (t : Template)
    (hs : source ∈ data.sound_sources.getD [])
    (hv : variant ∈ source.variants.getD [])
    (ht : lookupTemplate tmpl variant.play_method = some t) :
    promptRecordOf (sceneOf data) (moodOf data) tmpl (sourceNameOf source)
      (sourceMaterialOf source) variant ∈ generate_prompts data tmpl ∧
    promptRecordOf (sceneOf data) (moodOf data) tmpl (sourceNameOf source)
      (sourceMaterialOf source) variant =
      { source_name := sourceNameOf source
        play_method := variant.play_method
        prompt := wrapPrompt (sceneOf data) (moodOf data)
          (renderTemplate t (sourceNameOf source) (sourceMaterialOf source)
            (pyStr variant.play_method)
            (String.intercalate ", " (variant.timbre.getD []))
            (pyStr variant.mapping_to_music_instrument)) } := by
  refine ⟨promptRecordOf_mem data tmpl hs hv, ?_⟩
  simp [promptRecordOf, ht]

/-- Witness for C2: a custom template keyed `creak` applied to the matching
variant of the sample descriptor. -/
theorem custom_template_exact_render_witness :
    promptRecordOf (sceneOf wData) (moodOf wData) [("creak", wTemplate)]
      (sourceNameOf wSourceB) (sourceMaterialOf wSourceB) wVariantB2 ∈
      generate_prompts wData [("creak", wTemplate)] ∧
    promptRecordOf (sceneOf wData) (moodOf wData) [("creak", wTemplate)]
      (sourceNameOf wSourceB) (sourceMaterialOf wSourceB) wVariantB2 =
      { source_name := sourceNameOf wSourceB
        play_method := wVariantB2.play_method
        prompt := wrapPrompt (sceneOf wData) (moodOf wData)
          (renderTemplate wTemplate (sourceNameOf wSourceB) (sourceMaterialOf wSourceB)
            (pyStr wVariantB2.play_method)
            (String.intercalate ", " (wVariantB2.timbre.getD []))
            (pyStr wVariantB2.mapping_to_music_instrument)) } :=
  custom_template_exact_render wData [("creak", wTemplate)] wSourceB wVariantB2 wTemplate
    (by decide) (by decide) rfl

/-- C6: a variant lacking the `play_method` key still yields a PromptRecord:
the record's `play_method` field is the absent value, and the prompt embeds
that absent value as the literal null marker `None` in the action sentence. -/
theorem missing_play_method_still_recorded (data : SceneData)
    (tmpl : List (String × Template)) (source : SoundSource) (variant : Variant)
    (hs : source ∈ data.sound_sources.getD [])
    (hv : variant ∈ source.variants.getD [])
    (hpm : variant.play_method = none) :
    promptRecordOf (sceneOf data) (moodOf data) tmpl (sourceNameOf source)
      (sourceMaterialOf source) variant ∈ generate_prompts data tmpl ∧
    (promptRecordOf (sceneOf data) (moodOf data) tmpl (sourceNameOf source)
      (sourceMaterialOf source) variant).play_method = none ∧
    strContains (promptRecordOf (sceneOf data) (moodOf data) tmpl (sourceNameOf source)
        (sourceMaterialOf source) variant).prompt
      ("The action is a '" ++ "None" ++ "', creating a sound with a '") = true := by
  have ht : lookupTemplate tmpl variant.play_method = none := by rw [hpm]; rfl
  refine ⟨promptRecordOf_mem data tmpl hs hv, by simp [promptRecordOf, hpm], ?_⟩
  cases hinstr : variant.mapping_to_music_instrument with
  | some instr =>
      by_cases hcond : instr ≠ "" ∧ pyLower instr ≠ "none"
      · have hrec : promptRecordOf (sceneOf data) (moodOf data) tmpl (sourceNameOf source)
            (sourceMaterialOf source) variant =
            { source_name := sourceNameOf source
              play_method := variant.play_method
              prompt := wrapPrompt (sceneOf data) (moodOf data)
                (instrCore (sourceNameOf source) (sourceMaterialOf source) "None"
                  (String.intercalate ", " (variant.timbre.getD [])) instr) } := by
          simp [promptRecordOf, lookupTemplate, hinstr, hcond, hpm, pyStr]
        rw [hrec]
        exact strContains_of_parts _
          ("Context: The scene is '" ++ sceneOf data ++ "'. The overall mood is '" ++
            moodOf data ++ "'.\n\n" ++ "Generate a high-fidelity, realistic sound effect.\n" ++
            "The sound source is '" ++ sourceNameOf source ++ "' made of '" ++
            sourceMaterialOf source ++ "'.\n")
          ("The action is a '" ++ "None" ++ "', creating a sound with a '")
          (String.intercalate ", " (variant.timbre.getD []) ++ "' timbre.\n" ++
            "For this, use the sonic character of a '" ++ instr ++
            "' as an inspirational reference for the sound's quality, " ++
            "especially its '" ++ String.intercalate ", " (variant.timbre.getD []) ++
            "' aspects.\n" ++
            "The final audio must be a completely natural sound, not a musical note." ++
            "\n\n" ++ "Crucially, the generated sound must be consistent with the '" ++
            moodOf data ++ "' mood and not feel out of place.")
          (by simp only [wrapPrompt, instrCore, strAppend_assoc])
      · have hrec : promptRecordOf (sceneOf data) (moodOf data) tmpl (sourceNameOf source)
            (sourceMaterialOf source) variant =
            { source_name := sourceNameOf source
              play_method := variant.play_method
              prompt := wrapPrompt (sceneOf data) (moodOf data)
                (plainCore (sourceNameOf source) (sourceMaterialOf source) "None"
                  (String.intercalate ", " (variant.timbre.getD []))) } := by
          simp [promptRecordOf, lookupTemplate, hinstr, hcond, hpm, pyStr]
        rw [hrec]
        exact strContains_of_parts _
          ("Context: The scene is '" ++ sceneOf data ++ "'. The overall mood is '" ++
            moodOf data ++ "'.\n\n" ++ "Generate a high-fidelity, realistic sound effect.\n" ++
            "The sound source is '" ++ sourceNameOf source ++ "' made of '" ++
            sourceMaterialOf source ++ "'.\n")
          ("The action is a '" ++ "None" ++ "', creating a sound with a '")
          (String.intercalate ", " (variant.timbre.getD []) ++ "' timbre.\n" ++
            "The recording should be clean and detailed, sounding authentic as if captured in a " ++
            "real-world environment. " ++ "Focus on realism, not musicality." ++
            "\n\n" ++ "Crucially, the generated sound must be consistent with the '" ++
            moodOf data ++ "' mood and not feel out of place.")
          (by simp only [wrapPrompt, plainCore, strAppend_assoc])
  | none =>
      have hrec : promptRecordOf (sceneOf data) (moodOf data) tmpl (sourceNameOf source)
          (sourceMaterialOf source) variant =
          { source_name := sourceNameOf source
            play_method := variant.play_method
            prompt := wrapPrompt (sceneOf data) (moodOf data)
              (plainCore (sourceNameOf source) (sourceMaterialOf source) "None"
                (String.intercalate ", " (variant.timbre.getD []))) } := by
        simp [promptRecordOf, lookupTemplate, hinstr, hpm, pyStr]
      rw [hrec]
      exact strContains_of_parts _
        ("Context: The scene is '" ++ sceneOf data ++ "'. The overall mood is '" ++
          moodOf data ++ "'.\n\n" ++ "Generate a high-fidelity, realistic sound effect.\n" ++
          "The sound source is '" ++ sourceNameOf source ++ "' made of '" ++
          sourceMaterialOf source ++ "'.\n")
        ("The action is a '" ++ "None" ++ "', creating a sound with a '")
        (String.intercalate ", " (variant.timbre.getD []) ++ "' timbre.\n" ++
          "The recording should be clean and detailed, sounding authentic as if captured in a " ++
          "real-world environment. " ++ "Focus on realism, not musicality." ++
          "\n\n" ++ "Crucially, the generated sound must be consistent with the '" ++
          moodOf data ++ "' mood and not feel out of place.")
        (by simp only [wrapPrompt, plainCore, strAppend_assoc])

/-- Witness for C6: the sample descriptor whose single variant lacks
`play_method`. -/
theorem missing_play_method_still_recorded_witness :
    (generate_prompts noPmData []).length = 1 ∧
    ((generate_prompts noPmData []).headD ⟨"", some "", ""⟩).play_method = none ∧
    strContains (firstPrompt (generate_prompts noPmData []))
      ("The action is a '" ++ "None" ++ "', creating a sound with a '") = true := by
  have h := missing_play_method_still_recorded noPmData []
    ⟨some "fan", some "plastic", some [⟨none, some ["soft"], some "None"⟩]⟩
    ⟨none, some ["soft"], some "None"⟩ (by decide) (by decide) rfl
  exact ⟨by decide, by decide, h.2.2⟩

/-- C4: for a variant whose instrument value is `"None"` in any letter case
and whose `play_method` matches no custom-template key, the instrument-free
fixed template is selected and the prompt does not mention an instrument: the
prompt equals the context wrapper around `plainCore` (which takes no
instrument argument), the record is unchanged when the instrument key is
dropped altogether, and at the spec §8 example the prompt text contains
neither the word `instrument` nor the instrument value `None`. -/
theorem none_instrument_not_mentioned (data : SceneData) (tmpl : List (String × Template))
    (source : SoundSource) (variant : Variant) (s : String)
    (hs : source ∈ data.sound_sources.getD [])
    (hv : variant ∈ source.variants.getD [])
    (hinstr : variant.mapping_to_music_instrument = some s)
    (hnone : pyLower s = "none")
    (ht : lookupTemplate tmpl variant.play_method = none) :
    promptRecordOf (sceneOf data) (moodOf data) tmpl (sourceNameOf source)
      (sourceMaterialOf source) variant ∈ generate_prompts data tmpl ∧
    (promptRecordOf (sceneOf data) (moodOf data) tmpl (sourceNameOf source)
      (sourceMaterialOf source) variant).prompt =
      wrapPrompt (sceneOf data) (moodOf data)
        (plainCore (sourceNameOf source) (sourceMaterialOf source)
          (pyStr variant.play_method)
          (String.intercalate ", " (variant.timbre.getD []))) ∧
    promptRecordOf (sceneOf data) (moodOf data) tmpl (sourceNameOf source)
      (sourceMaterialOf source) { variant with mapping_to_music_instrument := none } =
      promptRecordOf (sceneOf data) (moodOf data) tmpl (sourceNameOf source)
        (sourceMaterialOf source) variant ∧
    strContains (firstPrompt (generate_prompts exLeafData [])) "instrument" = false ∧
    strContains (firstPrompt (generate_prompts exLeafData [])) "None" = false := by
  refine ⟨promptRecordOf_mem data tmpl hs hv, ?_, ?_, by decide, by decide⟩
  · simp [promptRecordOf, ht, hinstr, hnone]
  · simp [promptRecordOf, ht, hinstr, hnone]

/-- Witness for C4 at the spec §8 example (instrument value `"None"`). -/
theorem none_instrument_not_mentioned_witness :
    (promptRecordOf (sceneOf exLeafData) (moodOf exLeafData) []
      (sourceNameOf ⟨some "leaf", some "organic", some [exLeafVariant]⟩)
      (sourceMaterialOf ⟨some "leaf", some "organic", some [exLeafVariant]⟩)
      exLeafVariant).prompt =
      wrapPrompt (sceneOf exLeafData) (moodOf exLeafData)
        (plainCore (sourceNameOf ⟨some "leaf", some "organic", some [exLeafVariant]⟩)
          (sourceMaterialOf ⟨some "leaf", some "organic", some [exLeafVariant]⟩)
          (pyStr exLeafVariant.play_method)
          (String.intercalate ", " (exLeafVariant.timbre.getD []))) ∧
    strContains (firstPrompt (generate_prompts exLeafData [])) "instrument" = false := by
  have h := none_instrument_not_mentioned exLeafData []
    ⟨some "leaf", some "organic", some [exLeafVariant]⟩ exLeafVariant "None"
    (by decide) (by decide) rfl rfl rfl
  exact ⟨h.2.1, h.2.2.2.1⟩

/-- C3 as stated is false on the code: a variant whose instrument key is
present but holds the empty string satisfies "present and case-insensitively
not `none`", yet the code's truthiness test routes it to the instrument-free
template, whose prompt neither mentions an inspirational reference nor
forbids a musical-note outcome. -/
theorem instrument_reference_counterexample :
    emptyInstrVariant.mapping_to_music_instrument.isSome = true ∧
    pyLower (emptyInstrVariant.mapping_to_music_instrument.getD "") ≠ "none" ∧
    lookupTemplate [] emptyInstrVariant.play_method = none ∧
    (generate_prompts emptyInstrData []).length = 1 ∧
    strContains (firstPrompt (generate_prompts emptyInstrData [])) "inspirational" = false ∧
    strContains (firstPrompt (generate_prompts emptyInstrData [])) "musical note" = false := by
  decide

/-- C3 amended: for every variant whose `play_method` matches no
custom-template key and whose instrument value is present, non-empty, and
case-insensitively not `"none"`, the prompt names that instrument as an
inspirational (timbral) reference and contains the fixed sentence forbidding
a musical-note outcome. -/
theorem instrument_reference_amended (data : SceneData) (tmpl : List (String × Template))
    (source : SoundSource) (variant : Variant) (instr : String)
    (hs : source ∈ data.sound_sources.getD [])
    (hv : variant ∈ source.variants.getD [])
    (hinstr : variant.mapping_to_music_instrument = some instr)
    (hne : instr ≠ "")
    (hnn : pyLower instr ≠ "none")
    (ht : lookupTemplate tmpl variant.play_method = none) :
    promptRecordOf (sceneOf data) (moodOf data) tmpl (sourceNameOf source)
      (sourceMaterialOf source) variant ∈ generate_prompts data tmpl ∧
    strContains (promptRecordOf (sceneOf data) (moodOf data) tmpl (sourceNameOf source)
        (sourceMaterialOf source) variant).prompt
      ("For this, use the sonic character of a '" ++ instr ++
        "' as an inspirational reference for the sound's quality, ") = true ∧
    strContains (promptRecordOf (sceneOf data) (moodOf data) tmpl (sourceNameOf source)
        (sourceMaterialOf source) variant).prompt
      "The final audio must be a completely natural sound, not a musical note." = true := by
  have hrec : promptRecordOf (sceneOf data) (moodOf data) tmpl (sourceNameOf source)
      (sourceMaterialOf source) variant =
      { source_name := sourceNameOf source
        play_method := variant.play_method
        prompt := wrapPrompt (sceneOf data) (moodOf data)
          (instrCore (sourceNameOf source) (sourceMaterialOf source)
            (pyStr variant.play_method)
            (String.intercalate ", " (variant.timbre.getD [])) instr) } := by
    simp [promptRecordOf, ht, hinstr, hne, hnn]
  refine ⟨promptRecordOf_mem data tmpl hs hv, ?_, ?_⟩
  · rw [hrec]
    exact strContains_of_parts _
      ("Context: The scene is '" ++ sceneOf data ++ "'. The overall mood is '" ++
        moodOf data ++ "'.\n\n" ++ "Generate a high-fidelity, realistic sound effect.\n" ++
        "The sound source is '" ++ sourceNameOf source ++ "' made of '" ++
        sourceMaterialOf source ++ "'.\n" ++ "The action is a '" ++
        pyStr variant.play_method ++ "', creating a sound with a '" ++
        String.intercalate ", " (variant.timbre.getD []) ++ "' timbre.\n")
      ("For this, use the sonic character of a '" ++ instr ++
        "' as an inspirational reference for the sound's quality, ")
      ("especially its '" ++ String.intercalate ", " (variant.timbre.getD []) ++
        "' aspects.\n" ++
        "The final audio must be a completely natural sound, not a musical note." ++
        "\n\n" ++ "Crucially, the generated sound must be consistent with the '" ++
        moodOf data ++ "' mood and not feel out of place.")
      (by simp only [wrapPrompt, instrCore, strAppend_assoc])
  · rw [hrec]
    exact strContains_of_parts _
      ("Context: The scene is '" ++ sceneOf data ++ "'. The overall mood is '" ++
        moodOf data ++ "'.\n\n" ++ "Generate a high-fidelity, realistic sound effect.\n" ++
        "The sound source is '" ++ sourceNameOf source ++ "' made of '" ++
        sourceMaterialOf source ++ "'.\n" ++ "The action is a '" ++
        pyStr variant.play_method ++ "', creating a sound with a '" ++
        String.intercalate ", " (variant.timbre.getD []) ++ "' timbre.\n" ++
        "For this, use the sonic character of a '" ++ instr ++
        "' as an inspirational reference for the sound's quality, " ++
        "especially its '" ++ String.intercalate ", " (variant.timbre.getD []) ++
        "' aspects.\n")
      "The final audio must be a completely natural sound, not a musical note."
      ("\n\n" ++ "Crucially, the generated sound must be consistent with the '" ++
        moodOf data ++ "' mood and not feel out of place.")
      (by simp only [wrapPrompt, instrCore, strAppend_assoc])

/-- Witness for the amended C3 at the sample descriptor's `violin` variant. -/
theorem instrument_reference_amended_witness :
    promptRecordOf (sceneOf wData) (moodOf wData) [] (sourceNameOf wSourceB)
      (sourceMaterialOf wSourceB) wVariantB2 ∈ generate_prompts wData [] ∧
    strContains (promptRecordOf (sceneOf wData) (moodOf wData) [] (sourceNameOf wSourceB)
        (sourceMaterialOf wSourceB) wVariantB2).prompt
      ("For this, use the sonic character of a '" ++ "violin" ++
        "' as an inspirational reference for the sound's quality, ") = true ∧
    strContains (promptRecordOf (sceneOf wData) (moodOf wData) [] (sourceNameOf wSourceB)
        (sourceMaterialOf wSourceB) wVariantB2).prompt
      "The final audio must be a completely natural sound, not a musical note." = true :=
  instrument_reference_amended wData [] wSourceB wVariantB2 "violin"
    (by decide) (by decide) rfl (by decide) (by decide) rfl
